import Mathlib

/-!
Shallow embedding of the Trivia Flask backend (`backend/flaskr/__init__.py`)
and proofs about its route handlers.

The ORM layer (`models.py`: the `Question`/`Category` records, `format`,
`insert`, `delete`, auto-assigned primary keys) is not part of the sources;
those pieces are modelled from the spec and carry a
`Modelled from the spec:` doc comment.  Everything else is translated
directly from `backend/flaskr/__init__.py`.

Conventions of the embedding:
* the database is an explicit `DB` value threaded through the handlers;
* a handler returns `Except Nat payload` where `.error n` is `abort(n)`
  (or, for `500`, an uncaught Python exception handled by Flask's
  internal-server-error handler);
* JSON values appearing in request bodies are the inductive `JVal`;
* `random.choice(selection)` is modelled by an arbitrary index `pick`,
  reduced modulo the length of the non-empty candidate list, so theorems
  quantify over every possible random outcome.
-/

/-- JSON values as found in request bodies. -/
inductive JVal where
  | jnull
  | jbool (b : Bool)
  | jint (n : Int)
  | jstr (s : String)
  | jlist (xs : List Int)
deriving DecidableEq, Repr

/-- Modelled from the spec: the `Question` record of the missing `models.py`:
`{id: integer (primary, auto-assigned), question: string, answer: string,
category: string (holds a stringified Category id), difficulty: integer}`. -/
structure Question where
  id : Int
  question : String
  answer : String
  category : String
  difficulty : Int
deriving DecidableEq, Repr

/-- Modelled from the spec: the `Category` record of the missing `models.py`:
`{id: integer (primary, auto-assigned), type: string}`. -/
structure Category where
  id : Int
  type : String
deriving DecidableEq, Repr

/-- Modelled from the spec: the dictionary produced by `Question.format()`,
serializing the five stored fields. -/
structure FormattedQuestion where
  id : Int
  question : String
  answer : String
  category : String
  difficulty : Int
deriving DecidableEq, Repr

/-- Modelled from the spec: `format()` serializes a question's five fields. -/
def Question.format (q : Question) : FormattedQuestion :=
  ⟨q.id, q.question, q.answer, q.category, q.difficulty⟩

/-- The database state: the two tables, plus the auto-assignment counter for
question primary keys (modelled from the spec: ids are "auto-assigned"). -/
structure DB where
  categories : List Category
  questions : List Question
  nextId : Int
deriving DecidableEq, Repr

/-- `QUESTIONS_PER_PAGE = 10` -/
def QUESTIONS_PER_PAGE : Int := 10

/-- Resolution of one Python slice endpoint against a list of length `len`:
a negative index counts from the end (clipped below at 0), a non-negative
index is clipped above at `len`. -/
def pyResolve (len : Nat) (i : Int) : Nat :=
  if i < 0 then ((len : Int) + i).toNat else min i.toNat len

/-- Python slice `xs[s:e]` (step 1): the elements at resolved indices
`[pyResolve len s, pyResolve len e)`. -/
def pySlice {α : Type} (xs : List α) (s e : Int) : List α :=
  (xs.take (pyResolve xs.length e)).drop (pyResolve xs.length s)

/-- `paginate(request, collection)`: reads the `page` query parameter
(defaulting to 1 when absent or unparseable, as `request.args.get` with
`type=int` does), formats every element, and returns the Python slice
`[(page-1)*10 : (page-1)*10 + 10]`. -/
def paginate (page : Option Int) (collection : List Question) : List FormattedQuestion :=
  let p := page.getD 1
  let start := (p - 1) * QUESTIONS_PER_PAGE
  let stop := start + QUESTIONS_PER_PAGE
  let current_collection := collection.map Question.format
  pySlice current_collection start stop

-- Basic slice lemmas --------------------------------------------------------

theorem pyResolve_nonneg (len : Nat) (i : Int) (h : 0 ≤ i) :
    pyResolve len i = min i.toNat len := by
  simp [pyResolve, not_lt.mpr h]

theorem take_min_len {α : Type} (xs : List α) (n : Nat) :
    xs.take (min n xs.length) = xs.take n := by
  rcases le_total n xs.length with h | h
  · rw [min_eq_left h]
  · rw [min_eq_right h, List.take_length, List.take_of_length_le h]

theorem drop_min_len {α : Type} (xs : List α) (n : Nat) :
    xs.drop (min n xs.length) = xs.drop n := by
  rcases le_total n xs.length with h | h
  · rw [min_eq_left h]
  · rw [min_eq_right h, List.drop_length, List.drop_eq_nil_of_le h]

theorem pySlice_nonneg {α : Type} (xs : List α) (s e : Int)
    (hs : 0 ≤ s) (he : 0 ≤ e) :
    pySlice xs s e = (xs.drop s.toNat).take (e.toNat - s.toNat) := by
  unfold pySlice
  rw [pyResolve_nonneg _ _ hs, pyResolve_nonneg _ _ he, take_min_len]
  have hdrop : ((xs.take e.toNat).drop (min s.toNat xs.length))
      = (xs.take e.toNat).drop s.toNat := by
    rcases le_total s.toNat xs.length with h | h
    · rw [min_eq_left h]
    · rw [min_eq_right h]
      rw [List.drop_eq_nil_of_le (by simp),
          List.drop_eq_nil_of_le (by simp; omega)]
  rw [hdrop, List.drop_take]

-- Python `int(...)` coercion ------------------------------------------------

/-- Value of a digit run; `none` when empty or a non-digit occurs. -/
def digitsToNat : List Char → Nat → Option Nat
  | [], acc => some acc
  | c :: rest, acc =>
      if c.isDigit then digitsToNat rest (acc * 10 + (c.toNat - 48)) else none

/-- Python `int(s)` on a string: optional sign followed by at least one
digit; anything else raises `ValueError` (`none`). -/
def pyParseInt (s : String) : Option Int :=
  match s.toList with
  | [] => none
  | '-' :: rest =>
      if rest.isEmpty then none else (digitsToNat rest 0).map (fun n => -(n : Int))
  | '+' :: rest =>
      if rest.isEmpty then none else (digitsToNat rest 0).map (fun n => (n : Int))
  | l => (digitsToNat l 0).map (fun n => (n : Int))

/-- Python `int(v)` on a JSON value: ints pass through, booleans become
0/1, strings are parsed, everything else raises (`none`, surfaced as a 500
by Flask since `play_quiz` has no handler around the call). -/
def pyInt : JVal → Option Int
  | .jint n => some n
  | .jbool b => some (if b then 1 else 0)
  | .jstr s => pyParseInt s
  | _ => none

-- Case-insensitive substring (`Question.question.ilike('%term%')`) ---------

/-- `leadsWith needle hay`: `hay` starts with `needle`. -/
def leadsWith {α : Type} [BEq α] : List α → List α → Bool
  | [], _ => true
  | _ :: _, [] => false
  | a :: as', b :: bs => a == b && leadsWith as' bs

/-- `hasSub needle hay`: `needle` occurs contiguously inside `hay`. -/
def hasSub {α : Type} [BEq α] (needle : List α) : List α → Bool
  | [] => needle.isEmpty
  | c :: t => leadsWith needle (c :: t) || hasSub needle t

/-- ASCII lowercasing of a character code (the case folding relevant to
the stored ASCII question texts). -/
def lowerCode (c : Char) : Nat :=
  if 65 ≤ c.toNat ∧ c.toNat ≤ 90 then c.toNat + 32 else c.toNat

/-- The SQL `ilike '%term%'` match used by the search endpoint:
case-insensitive substring on the `question` column (for terms without SQL
wildcard characters). -/
def ciContains (s term : String) : Bool :=
  hasSub (term.toList.map lowerCode) (s.toList.map lowerCode)

-- Response payloads ---------------------------------------------------------

/-- `current_category` values appearing in responses: `null`, a raw string
(the `category` column), or an integer id. -/
inductive CurrentCategory where
  | cnull
  | cstr (s : String)
  | cint (n : Int)
deriving DecidableEq, Repr

/-- The shared success envelope of `GET /questions` and
`GET /questions/{id}`. -/
structure QuestionsPayload where
  questions : List FormattedQuestion
  current_category : CurrentCategory
  total_questions : Nat
  categories : List (Int × String)
deriving DecidableEq, Repr

/-- Success envelope of `POST /questions/search`. -/
structure SearchPayload where
  questions : List FormattedQuestion
  total_questions : Nat
  current_category : CurrentCategory
deriving DecidableEq, Repr

/-- Success envelope of `POST /questions`. -/
structure CreatePayload where
  created : Int
  total_questions : Nat
deriving DecidableEq, Repr

/-- Success envelope of `DELETE /questions/{id}`. -/
structure DeletePayload where
  deleted : Int
  total_questions : Nat
deriving DecidableEq, Repr

/-- The id→type mapping `{category.id: category.type for category in
Category.query.all()}`. -/
def categoryMap (s : DB) : List (Int × String) :=
  s.categories.map (fun c => (c.id, c.type))

-- Handlers ------------------------------------------------------------------

/-- `GET /categories`. -/
def get_categories (s : DB) : Except Nat (List (Int × String)) :=
  if s.categories.isEmpty then .error 404
  else .ok (categoryMap s)

/-- `GET /questions`. -/
def get_questions (page : Option Int) (s : DB) : Except Nat QuestionsPayload :=
  if s.questions.isEmpty then .error 404
  else .ok ⟨paginate page s.questions, .cnull, s.questions.length, categoryMap s⟩

/-- `GET /questions/{id}`. -/
def get_question (question_id : Int) (s : DB) : Except Nat QuestionsPayload :=
  match s.questions.find? (fun q => q.id == question_id) with
  | none => .error 404
  | some q =>
      .ok ⟨[q.format], .cstr q.category, s.questions.length, categoryMap s⟩

/-- `DELETE /questions/{id}`.  Returns the payload together with the
post-state.  Modelled from the spec: `question.delete()` removes the row
with that primary key. -/
def delete_question (question_id : Int) (s : DB) :
    Except Nat (DeletePayload × DB) :=
  match s.questions.find? (fun q => q.id == question_id) with
  | none => .error 404
  | some _ =>
      let s' : DB :=
        { s with questions := s.questions.filter (fun q => !(q.id == question_id)) }
      .ok (⟨question_id, s'.questions.length⟩, s')

/-- Modelled from the spec: the persistence layer accepts a value for a
string column only when it is a JSON string. -/
def dbStr : JVal → Option String
  | .jstr v => some v
  | _ => none

/-- Modelled from the spec: the persistence layer accepts a value for an
integer column only when it is a JSON integer (a "type coercion failure"
during insert raises, which `create_question` turns into a 422). -/
def dbInt : JVal → Option Int
  | .jint v => some v
  | _ => none

/-- `POST /questions`.  The body is an association list (a JSON object);
`none` models an empty/absent body (`not body`). -/
def create_question (body : Option (List (String × JVal))) (s : DB) :
    Except Nat (CreatePayload × DB) :=
  match body with
  | none => .error 400
  | some b =>
      match b.lookup "question", b.lookup "answer",
            b.lookup "category", b.lookup "difficulty" with
      | some qv, some av, some cv, some dv =>
          match dbStr qv, dbStr av, dbStr cv, dbInt dv with
          | some q0, some a0, some c0, some d0 =>
              let new_question : Question := ⟨s.nextId, q0, a0, c0, d0⟩
              let s' : DB := { s with
                questions := s.questions ++ [new_question],
                nextId := s.nextId + 1 }
              .ok (⟨new_question.id, s'.questions.length⟩, s')
          | _, _, _, _ => .error 422
      | _, _, _, _ => .error 400

/-- The match set of `POST /questions/search`. -/
def searchSelection (term : String) (s : DB) : List Question :=
  s.questions.filter (fun q => ciContains q.question term)

/-- `POST /questions/search`.  The body either lacks the `searchTerm` key
(`none`, covering `not body` and a key-less object) or carries the term. -/
def search_questions (searchTerm : Option String) (page : Option Int) (s : DB) :
    Except Nat SearchPayload :=
  match searchTerm with
  | none => .error 400
  | some term =>
      let selection := searchSelection term s
      .ok ⟨paginate page selection, selection.length, .cnull⟩

-- Quiz endpoint --------------------------------------------------------------

/-- The `quiz_category` sub-object of a `POST /quizzes` body; each field is
`none` when the sub-key is absent.  The `type` value only ever flows into
response messages. -/
structure QuizCategory where
  id : Option JVal
  type : Option String
deriving DecidableEq, Repr

/-- A `POST /quizzes` body; each field is `none` when the key is absent. -/
structure QuizBody where
  previous_questions : Option (List Int)
  quiz_category : Option QuizCategory
deriving DecidableEq, Repr

/-- The three response shapes of `POST /quizzes`: an error status, the
no-more-questions success (`question: null`, no `previous_questions` key),
and the picked-question success. -/
inductive QuizResp where
  | err (status : Nat)
  | noMore (message : String)
  | picked (message : String) (question : FormattedQuestion)
      (previous_questions : List Int)
deriving DecidableEq, Repr

/-- The candidate set of `play_quiz`: questions whose id is not among
`previous_questions`, restricted to the category (compared against
`str(category_id)`) unless `category_id == 0`. -/
def quizSelection (category_id : Int) (previous_questions : List Int)
    (s : DB) : List Question :=
  if category_id = 0 then
    s.questions.filter (fun q => !(previous_questions.contains q.id))
  else
    s.questions.filter (fun q =>
      q.category == toString category_id && !(previous_questions.contains q.id))

/-- The fixed no-more-questions message templates of `play_quiz`. -/
def noMoreMsg (category_id : Int) (ty : String) : String :=
  if category_id ≠ 0 then
    "No more questions available in the category " ++ ty ++
      " (Select another category to continue"
  else
    "No more questions available - Add new (question, answer) pairs to continue"

/-- The fixed success message templates of `play_quiz`. -/
def pickedMsg (category_id : Int) (ty : String) : String :=
  if category_id ≠ 0 then
    "New random question successfully retrieved from category " ++ ty
  else
    "New random question successfully retrieved"

/-- `POST /quizzes`.  `pick` models the outcome of `random.choice`: an
arbitrary index into the non-empty candidate list (reduced modulo its
length so every candidate is reachable).  `.err 500` models the uncaught
`ValueError`/`TypeError` of `int(body['quiz_category']['id'])`. -/
def play_quiz (body : Option QuizBody) (pick : Nat) (s : DB) : QuizResp :=
  match body with
  | none => .err 400
  | some b =>
      match b.previous_questions, b.quiz_category with
      | some previous_questions, some qc =>
          match qc.id, qc.type with
          | some idv, some ty =>
              match pyInt idv with
              | none => .err 500
              | some category_id =>
                  if category_id ∈ s.categories.map Category.id ++ [0] then
                    let selection := quizSelection category_id previous_questions s
                    if h : selection.length = 0 then
                      .noMore (noMoreMsg category_id ty)
                    else
                      let new_question :=
                        selection.get ⟨pick % selection.length,
                          Nat.mod_lt _ (Nat.pos_of_ne_zero h)⟩
                      .picked (pickedMsg category_id ty) new_question.format
                        (previous_questions ++ [new_question.id])
                  else .err 404
          | _, _ => .err 400
      | _, _ => .err 400

-- Sample data (used by witnesses) -------------------------------------------

/-- A sample question mirroring the test fixture. -/
def sampleQ : Question := ⟨1, "Who invented Python?", "Guido van Rossum", "1", 4⟩

/-- A second sample question. -/
def sampleQ2 : Question := ⟨2, "Where is the HQ of OpenAI?", "San Francisco", "3", 3⟩

/-- A sample database with two categories and two questions. -/
def sampleDB : DB := ⟨[⟨1, "Science"⟩, ⟨3, "Geography"⟩], [sampleQ, sampleQ2], 5⟩

/-- Thirty distinct sample questions, for slicing witnesses. -/
def sampleQ30 : List Question :=
  (List.range 30).map (fun i => ⟨(i : Int), "q", "a", "1", 1⟩)

-- C2 -------------------------------------------------------------------------

/-- C2: for every page `p ≥ 1`, `paginate` returns exactly the formatted
items at indices `[(p-1)*10, p*10)` clipped to the collection (the
drop/take form), a page past the end yields `[]` rather than an error, and
an absent page parameter behaves as page 1. -/
theorem paginate_page_ge_one_spec (p : Int) (xs : List Question) (hp : 1 ≤ p) :
    paginate (some p) xs
      = ((xs.map Question.format).drop ((p - 1) * 10).toNat).take 10
  ∧ paginate none xs = (xs.map Question.format).take 10
  ∧ ((xs.length : Int) ≤ (p - 1) * 10 → paginate (some p) xs = []) := by
  have h1 : paginate (some p) xs
      = ((xs.map Question.format).drop ((p - 1) * 10).toNat).take 10 := by
    simp only [paginate, QUESTIONS_PER_PAGE, Option.getD_some]
    rw [pySlice_nonneg _ _ _ (by omega) (by omega)]
    have harith : ((p - 1) * 10 + 10).toNat - ((p - 1) * 10).toNat = 10 := by
      omega
    rw [harith]
  refine ⟨h1, ?_, ?_⟩
  · simp only [paginate, QUESTIONS_PER_PAGE, Option.getD_none]
    rw [pySlice_nonneg _ _ _ (by omega) (by omega)]
    norm_num
    omega
  · intro hpast
    rw [h1, List.drop_eq_nil_of_le (by simp only [List.length_map]; omega)]
    simp

/-- C2 witness: page 2 of a two-question collection is past the end. -/
theorem paginate_page_ge_one_spec_witness :
    (1 : Int) ≤ 2 ∧
    (paginate (some 2) [sampleQ, sampleQ2]
        = (([sampleQ, sampleQ2].map Question.format).drop (((2:Int) - 1) * 10).toNat).take 10
      ∧ paginate none [sampleQ, sampleQ2] = ([sampleQ, sampleQ2].map Question.format).take 10
      ∧ ((([sampleQ, sampleQ2] : List Question).length : Int) ≤ ((2:Int) - 1) * 10 →
          paginate (some 2) [sampleQ, sampleQ2] = [])) :=
  ⟨by norm_num, paginate_page_ge_one_spec 2 [sampleQ, sampleQ2] (by norm_num)⟩

-- C9 -------------------------------------------------------------------------

/-- C9: `paginate` is total on every integer page value (it is a Lean
function, so it never raises); page 0 yields the empty list for every
collection, of any length, while a negative page over a sufficiently long
collection yields a non-empty slice taken from the end of the collection by
Python's negative indexing. -/
theorem paginate_zero_and_negative_spec (p : Int) (xs : List Question)
    (hneg : p < 0) (hlen : 0 ≤ (xs.length : Int) + (p - 1) * 10) :
    (∀ ys : List Question, paginate (some 0) ys = [])
  ∧ paginate (some p) xs
      = ((xs.map Question.format).drop
          ((xs.length : Int) + (p - 1) * 10).toNat).take 10
  ∧ paginate (some p) xs ≠ [] := by
  have h2 : paginate (some p) xs
      = ((xs.map Question.format).drop
          ((xs.length : Int) + (p - 1) * 10).toNat).take 10 := by
    simp only [paginate, QUESTIONS_PER_PAGE, Option.getD_some, pySlice,
      pyResolve, List.length_map]
    rw [if_pos (by omega), if_pos (by omega), List.drop_take]
    congr 1
    omega
  refine ⟨?_, h2, ?_⟩
  · intro ys
    simp only [paginate, QUESTIONS_PER_PAGE, Option.getD_some, pySlice,
      pyResolve, List.length_map]
    norm_num
  · have hlength : (paginate (some p) xs).length = 10 := by
      rw [h2]
      simp only [List.length_take, List.length_drop, List.length_map]
      omega
    intro hnil
    rw [hnil] at hlength
    simp at hlength

/-- C9 witness: page -1 over a 30-question collection yields the 10
questions at indices 10..19 of the formatted collection, non-empty; page 0
is empty also over the empty and a one-question collection. -/
theorem paginate_zero_and_negative_spec_witness :
    (-1 : Int) < 0 ∧ 0 ≤ ((sampleQ30.length : Int) + ((-1 : Int) - 1) * 10) ∧
    paginate (some 0) ([] : List Question) = []
  ∧ paginate (some 0) [sampleQ] = []
  ∧ paginate (some 0) sampleQ30 = []
  ∧ paginate (some (-1)) sampleQ30
      = ((sampleQ30.map Question.format).drop
          ((sampleQ30.length : Int) + ((-1 : Int) - 1) * 10).toNat).take 10
  ∧ paginate (some (-1)) sampleQ30 ≠ [] :=
  ⟨by norm_num, by decide,
    (paginate_zero_and_negative_spec (-1) sampleQ30 (by norm_num) (by decide)).1 [],
    (paginate_zero_and_negative_spec (-1) sampleQ30 (by norm_num) (by decide)).1 [sampleQ],
    (paginate_zero_and_negative_spec (-1) sampleQ30 (by norm_num) (by decide)).1 sampleQ30,
    (paginate_zero_and_negative_spec (-1) sampleQ30 (by norm_num) (by decide)).2.1,
    (paginate_zero_and_negative_spec (-1) sampleQ30 (by norm_num) (by decide)).2.2⟩

-- C1 -------------------------------------------------------------------------

/-- Every member of the quiz candidate set avoids `previous_questions` and,
for a specific category, carries that category's decimal string. -/
theorem quizSelection_mem (cid : Int) (prev : List Int) (s : DB)
    (x : Question) (hx : x ∈ quizSelection cid prev s) :
    x.id ∉ prev ∧ (cid ≠ 0 → x.category = toString cid) := by
  unfold quizSelection at hx
  by_cases hc0 : cid = 0
  · rw [if_pos hc0] at hx
    rw [List.mem_filter] at hx
    exact ⟨by simpa using hx.2, fun h => absurd hc0 h⟩
  · rw [if_neg hc0] at hx
    rw [List.mem_filter] at hx
    have h2 := hx.2
    rw [Bool.and_eq_true] at h2
    exact ⟨by simpa using h2.2, fun _ => by simpa using h2.1⟩

/-- C1: whenever `POST /quizzes` returns a question (for any database,
submitted exclusion list, category id value and random outcome), the
question's id is not in the submitted `previous_questions`, its `category`
field is the decimal string of the requested category id when that id is
non-zero, and the returned `previous_questions` is the submitted list with
the selected question's id appended. -/
theorem play_quiz_picked_spec (s : DB) (prev : List Int) (idv : JVal)
    (ty : String) (pick : Nat) (cid : Int) (msg : String)
    (q : FormattedQuestion) (prev' : List Int)
    (hid : pyInt idv = some cid)
    (hres : play_quiz (some ⟨some prev, some ⟨some idv, some ty⟩⟩) pick s
              = .picked msg q prev') :
    q.id ∉ prev ∧ (cid ≠ 0 → q.category = toString cid)
      ∧ prev' = prev ++ [q.id] := by
  unfold play_quiz at hres
  simp only [hid] at hres
  by_cases hmem : cid ∈ s.categories.map Category.id ++ [0]
  · rw [if_pos hmem] at hres
    by_cases hlen : (quizSelection cid prev s).length = 0
    · rw [dif_pos hlen] at hres
      exact absurd hres (by simp)
    · rw [dif_neg hlen] at hres
      simp only [QuizResp.picked.injEq] at hres
      obtain ⟨-, hq, hprev⟩ := hres
      have hget : (quizSelection cid prev s).get
          ⟨pick % (quizSelection cid prev s).length,
            Nat.mod_lt _ (Nat.pos_of_ne_zero hlen)⟩ ∈ quizSelection cid prev s :=
        List.get_mem _ _ _
      have hprops := quizSelection_mem cid prev s _ hget
      rw [← hq]
      refine ⟨?_, ?_, ?_⟩
      · simpa [Question.format] using hprops.1
      · intro h0
        simpa [Question.format] using hprops.2 h0
      · rw [← hprev]
        simp [Question.format]
  · rw [if_neg hmem] at hres
    exact absurd hres (by simp)

/-- C1 witness: against the sample database, category 1, empty exclusion
list, random outcome 0. -/
theorem play_quiz_picked_spec_witness :
    pyInt (JVal.jint 1) = some 1 ∧
    play_quiz (some ⟨some [], some ⟨some (JVal.jint 1), some "Science"⟩⟩) 0 sampleDB
      = .picked (pickedMsg 1 "Science") sampleQ.format [1] ∧
    (sampleQ.format.id ∉ ([] : List Int)
      ∧ ((1 : Int) ≠ 0 → sampleQ.format.category = toString (1 : Int))
      ∧ [(1 : Int)] = [] ++ [sampleQ.format.id]) :=
  ⟨rfl, by decide,
    play_quiz_picked_spec sampleDB [] (JVal.jint 1) "Science" 0 1
      (pickedMsg 1 "Science") sampleQ.format [1] rfl (by decide)⟩

-- C3 -------------------------------------------------------------------------

/-- C3: `POST /quizzes` validation, in order: a body missing
`previous_questions` or `quiz_category` is a 400; a `quiz_category` missing
`id` or `type` is a 400; a coerced id outside (category ids ∪ {0}) is a
404; and when validation passes but the candidate set is empty the response
is the no-more-questions success with `question: null`. -/
theorem play_quiz_validation_spec (s : DB) (pick : Nat) (prev : List Int)
    (idv : JVal) (ty : String) (cid : Int)
    (hid : pyInt idv = some cid) :
    play_quiz none pick s = .err 400
  ∧ (∀ c, play_quiz (some ⟨none, c⟩) pick s = .err 400)
  ∧ play_quiz (some ⟨some prev, none⟩) pick s = .err 400
  ∧ (∀ tyOpt, play_quiz (some ⟨some prev, some ⟨none, tyOpt⟩⟩) pick s = .err 400)
  ∧ (∀ idOpt, play_quiz (some ⟨some prev, some ⟨idOpt, none⟩⟩) pick s = .err 400)
  ∧ (cid ∉ s.categories.map Category.id ++ [0] →
      play_quiz (some ⟨some prev, some ⟨some idv, some ty⟩⟩) pick s = .err 404)
  ∧ (cid ∈ s.categories.map Category.id ++ [0] →
      quizSelection cid prev s = [] →
      play_quiz (some ⟨some prev, some ⟨some idv, some ty⟩⟩) pick s
        = .noMore (noMoreMsg cid ty)) := by
  refine ⟨rfl, fun c => rfl, rfl, ?_, ?_, ?_, ?_⟩
  · intro tyOpt
    cases tyOpt <;> rfl
  · intro idOpt
    cases idOpt <;> rfl
  · intro hnot
    unfold play_quiz
    simp only [hid]
    rw [if_neg hnot]
  · intro hin hsel
    unfold play_quiz
    simp only [hid]
    rw [if_pos hin, dif_pos (by simp [hsel])]

/-- C3 witness: the 400, 404 and empty-candidate cases against the sample
database. -/
theorem play_quiz_validation_spec_witness :
    pyInt (JVal.jstr "1") = some 1
  ∧ play_quiz none 0 sampleDB = QuizResp.err 400
  ∧ play_quiz (some ⟨some [], some ⟨some (JVal.jint 99), some "X"⟩⟩) 0 sampleDB
      = QuizResp.err 404
  ∧ play_quiz (some ⟨some [1, 2], some ⟨some (JVal.jstr "1"), some "Science"⟩⟩) 0
      sampleDB = QuizResp.noMore (noMoreMsg 1 "Science") :=
  ⟨by decide,
   (play_quiz_validation_spec sampleDB 0 [] (JVal.jstr "1") "Science" 1 (by decide)).1,
   (play_quiz_validation_spec sampleDB 0 [] (JVal.jint 99) "X" 99 rfl).2.2.2.2.2.1
     (by decide),
   (play_quiz_validation_spec sampleDB 0 [1, 2] (JVal.jstr "1") "Science" 1
     (by decide)).2.2.2.2.2.2 (by decide) (by decide)⟩

-- C10 ------------------------------------------------------------------------

/-- C10: a `POST /quizzes` body whose `quiz_category.id` is the string
"abc" passes the key checks but `int(...)` raises, so the request is
answered with a 500 internal error, not a 400 or a 404 — for every
database, exclusion list and `type` value. -/
theorem play_quiz_uncoercible_id_spec (s : DB) (prev : List Int) (ty : String)
    (pick : Nat) :
    pyInt (JVal.jstr "abc") = none
  ∧ play_quiz (some ⟨some prev, some ⟨some (JVal.jstr "abc"), some ty⟩⟩) pick s
      = QuizResp.err 500 :=
  ⟨rfl, rfl⟩

-- C4 -------------------------------------------------------------------------

/-- C4: `GET /categories` is a 404 exactly when the category table is
empty, `GET /questions` is a 404 exactly when no question exists at all,
and a non-empty question table yields a success for every page value, in
particular for out-of-range pages. -/
theorem empty_table_notfound_spec (s : DB) (page : Option Int) :
    (get_categories s = .error 404 ↔ s.categories = [])
  ∧ (get_questions page s = .error 404 ↔ s.questions = [])
  ∧ (s.questions ≠ [] →
      get_questions page s
        = .ok ⟨paginate page s.questions, .cnull, s.questions.length,
            categoryMap s⟩) := by
  refine ⟨?_, ?_, ?_⟩
  · unfold get_categories
    by_cases h : s.categories.isEmpty
    · rw [if_pos h]
      rw [List.isEmpty_iff] at h
      simp [h]
    · rw [if_neg h]
      rw [List.isEmpty_iff] at h
      simp [h]
  · unfold get_questions
    by_cases h : s.questions.isEmpty
    · rw [if_pos h]
      rw [List.isEmpty_iff] at h
      simp [h]
    · rw [if_neg h]
      rw [List.isEmpty_iff] at h
      simp [h]
  · intro h
    unfold get_questions
    rw [if_neg (by simpa [List.isEmpty_iff] using h)]

/-- C4 witness: a far out-of-range page over the sample database still
succeeds. -/
theorem empty_table_notfound_spec_witness :
    sampleDB.questions ≠ []
  ∧ get_questions (some 999) sampleDB
      = .ok ⟨paginate (some 999) sampleDB.questions, .cnull,
          sampleDB.questions.length, categoryMap sampleDB⟩ :=
  ⟨by decide, (empty_table_notfound_spec sampleDB (some 999)).2.2 (by decide)⟩

-- C5 -------------------------------------------------------------------------

/-- `paginate` of the empty collection is empty for every page value. -/
theorem paginate_nil (page : Option Int) : paginate page [] = [] := by
  simp [paginate, pySlice, pyResolve]

/-- C5: `POST /questions/search` is a 400 exactly when the body lacks the
`searchTerm` key; with the key present it always succeeds — in particular,
a term matching no question yields a success with an empty list and
`total_questions = 0`, never a 404. -/
theorem search_questions_spec (s : DB) (page : Option Int) (term : String) :
    search_questions none page s = .error 400
  ∧ search_questions (some term) page s
      = .ok ⟨paginate page (searchSelection term s),
          (searchSelection term s).length, .cnull⟩
  ∧ (searchSelection term s = [] →
      search_questions (some term) page s = .ok ⟨[], 0, .cnull⟩) := by
  refine ⟨rfl, rfl, ?_⟩
  intro h
  simp only [search_questions, h, paginate_nil, List.length_nil]

/-- C5 witness: a term matching none of the sample questions. -/
theorem search_questions_spec_witness :
    searchSelection "zzz" sampleDB = []
  ∧ search_questions (some "zzz") (some 1) sampleDB
      = .ok ⟨[], 0, .cnull⟩ :=
  ⟨by decide, (search_questions_spec sampleDB (some 1) "zzz").2.2 (by decide)⟩

-- C6 -------------------------------------------------------------------------

/-- A well-formed creation body and the states around it (witness data). -/
def sampleBody : List (String × JVal) :=
  [("question", .jstr "Who painted the Mona Lisa?"),
   ("answer", .jstr "Leonardo da Vinci"),
   ("category", .jstr "1"),
   ("difficulty", .jint 1)]

/-- The state after inserting `sampleBody` into `sampleDB`. -/
def sampleDB2 : DB :=
  ⟨sampleDB.categories,
   sampleDB.questions ++
     [⟨5, "Who painted the Mona Lisa?", "Leonardo da Vinci", "1", 1⟩],
   6⟩

/-- Every successful `create_question` assigns the next id, appends one row
and bumps the counter. -/
theorem create_question_ok_shape (s : DB) (body : List (String × JVal))
    (p : CreatePayload) (s2 : DB)
    (hok : create_question (some body) s = .ok (p, s2)) :
    p.created = s.nextId ∧ p.total_questions = s.questions.length + 1
      ∧ ∃ nq : Question, nq.id = s.nextId
          ∧ s2.questions = s.questions ++ [nq]
          ∧ s2.nextId = s.nextId + 1
          ∧ s2.categories = s.categories := by
  rcases hq : body.lookup "question" with _ | qv <;>
    simp [create_question, hq] at hok
  rcases ha : body.lookup "answer" with _ | av <;>
    simp [ha] at hok
  rcases hc : body.lookup "category" with _ | cv <;>
    simp [hc] at hok
  rcases hd : body.lookup "difficulty" with _ | dv <;>
    simp [hd] at hok
  rcases h1 : dbStr qv with _ | q0 <;> simp [h1] at hok
  rcases h2 : dbStr av with _ | a0 <;> simp [h2] at hok
  rcases h3 : dbStr cv with _ | c0 <;> simp [h3] at hok
  rcases h4 : dbInt dv with _ | d0
  · simp [h4] at hok
  · rw [h4] at hok
    have h5 := Except.ok.inj hok
    have hp : p = (⟨s.nextId, s.questions.length + 1⟩ : CreatePayload) :=
      (congrArg Prod.fst h5).symm
    have hs2 : s2 = ({ s with
        questions := s.questions ++ [(⟨s.nextId, q0, a0, c0, d0⟩ : Question)],
        nextId := s.nextId + 1 } : DB) :=
      (congrArg Prod.snd h5).symm
    subst hp
    subst hs2
    exact ⟨rfl, rfl, ⟨s.nextId, q0, a0, c0, d0⟩, rfl, rfl, rfl, rfl⟩

/-- C6: `POST /questions` is a 400 exactly when one of the four keys
`question`, `answer`, `category`, `difficulty` is missing (extra keys are
ignored: the outcome depends only on those four lookups); when all four are
present a persistence-layer rejection surfaces as a 422, never as an
internal error; and a success carries the new question's id and the updated
total count. -/
theorem create_question_spec (s : DB) (body : List (String × JVal)) :
    create_question none s = .error 400
  ∧ (create_question (some body) s = .error 400 ↔
      (body.lookup "question" = none ∨ body.lookup "answer" = none
        ∨ body.lookup "category" = none ∨ body.lookup "difficulty" = none))
  ∧ (∀ body2 : List (String × JVal),
      body2.lookup "question" = body.lookup "question" →
      body2.lookup "answer" = body.lookup "answer" →
      body2.lookup "category" = body.lookup "category" →
      body2.lookup "difficulty" = body.lookup "difficulty" →
      create_question (some body2) s = create_question (some body) s)
  ∧ (∀ qv av cv dv, body.lookup "question" = some qv →
      body.lookup "answer" = some av →
      body.lookup "category" = some cv →
      body.lookup "difficulty" = some dv →
      (dbStr qv = none ∨ dbStr av = none ∨ dbStr cv = none ∨ dbInt dv = none) →
      create_question (some body) s = .error 422)
  ∧ (∀ p s2, create_question (some body) s = .ok (p, s2) →
      p.created = s.nextId ∧ p.total_questions = s.questions.length + 1
        ∧ s2.questions.length = s.questions.length + 1) := by
  refine ⟨rfl, ?_, ?_, ?_, ?_⟩
  · rcases hq : body.lookup "question" with _ | qv
    · simp [create_question, hq]
    rcases ha : body.lookup "answer" with _ | av
    · simp [create_question, hq, ha]
    rcases hc : body.lookup "category" with _ | cv
    · simp [create_question, hq, ha, hc]
    rcases hd : body.lookup "difficulty" with _ | dv
    · simp [create_question, hq, ha, hc, hd]
    simp only [create_question, hq, ha, hc, hd]
    rcases h1 : dbStr qv with _ | q0 <;>
      rcases h2 : dbStr av with _ | a0 <;>
      rcases h3 : dbStr cv with _ | c0 <;>
      rcases h4 : dbInt dv with _ | d0 <;>
      simp
  · intro body2 h1 h2 h3 h4
    simp only [create_question, h1, h2, h3, h4]
  · intro qv av cv dv hq ha hc hd hfail
    simp only [create_question, hq, ha, hc, hd]
    rcases h1 : dbStr qv with _ | q0 <;>
      rcases h2 : dbStr av with _ | a0 <;>
      rcases h3 : dbStr cv with _ | c0 <;>
      rcases h4 : dbInt dv with _ | d0 <;>
      simp [h1, h2, h3, h4] at hfail ⊢
  · intro p s2 hok
    obtain ⟨hp, ht, nq, hid, hqs, hnext, hcats⟩ :=
      create_question_ok_shape s body p s2 hok
    refine ⟨hp, ht, ?_⟩
    rw [hqs]
    simp

/-- C6 witness: inserting the sample body into the sample database. -/
theorem create_question_spec_witness :
    create_question (some sampleBody) sampleDB = .ok (⟨5, 3⟩, sampleDB2)
  ∧ ((⟨5, 3⟩ : CreatePayload).created = sampleDB.nextId
      ∧ (⟨5, 3⟩ : CreatePayload).total_questions = sampleDB.questions.length + 1
      ∧ sampleDB2.questions.length = sampleDB.questions.length + 1) :=
  ⟨rfl,
   (create_question_spec sampleDB sampleBody).2.2.2.2 ⟨5, 3⟩ sampleDB2 rfl⟩

-- C7 -------------------------------------------------------------------------

/-- C7: from any state whose auto-assignment counter is fresh, successfully
creating a question and then deleting it by the returned id restores the
total question count, and a subsequent `GET /questions/{id}` on that id is
a 404. -/
theorem create_then_delete_spec (s : DB) (body : List (String × JVal))
    (p : CreatePayload) (s2 : DB)
    (hfresh : ∀ q ∈ s.questions, q.id ≠ s.nextId)
    (hc : create_question (some body) s = .ok (p, s2)) :
    ∃ dp s3, delete_question p.created s2 = .ok (dp, s3)
      ∧ s3.questions.length = s.questions.length
      ∧ get_question p.created s3 = .error 404 := by
  obtain ⟨hpc, -, nq, hnqid, hqs, -, -⟩ := create_question_ok_shape s body p s2 hc
  have hnone : s.questions.find? (fun q => q.id == p.created) = none := by
    rw [List.find?_eq_none]
    intro x hx
    rw [hpc]
    simpa using hfresh x hx
  have hfind : s2.questions.find? (fun q => q.id == p.created) = some nq := by
    rw [hqs, List.find?_append, hnone]
    simp [hnqid, hpc]
  have hfilter : s2.questions.filter (fun q => !(q.id == p.created)) = s.questions := by
    rw [hqs, List.filter_append]
    have hkeep : s.questions.filter (fun q => !(q.id == p.created)) = s.questions := by
      rw [List.filter_eq_self]
      intro a ha
      rw [hpc]
      simpa using hfresh a ha
    rw [hkeep]
    simp [hnqid, hpc]
  have hdel : delete_question p.created s2
      = .ok (⟨p.created, (s2.questions.filter (fun q => !(q.id == p.created))).length⟩,
             { s2 with questions := s2.questions.filter (fun q => !(q.id == p.created)) }) := by
    unfold delete_question
    rw [hfind]
  refine ⟨_, _, hdel, ?_, ?_⟩
  · simp [hfilter]
  · unfold get_question
    have hnone3 : (({ s2 with
        questions := s2.questions.filter (fun q => !(q.id == p.created)) } : DB).questions.find?
          (fun q => q.id == p.created)) = none := by
      simp only [hfilter]
      exact hnone
    rw [hnone3]

/-- C7 witness: create into the sample database, then delete. -/
theorem create_then_delete_spec_witness :
    (∀ q ∈ sampleDB.questions, q.id ≠ sampleDB.nextId)
  ∧ create_question (some sampleBody) sampleDB = .ok (⟨5, 3⟩, sampleDB2)
  ∧ ∃ dp s3, delete_question ((⟨5, 3⟩ : CreatePayload).created) sampleDB2 = .ok (dp, s3)
      ∧ s3.questions.length = sampleDB.questions.length
      ∧ get_question ((⟨5, 3⟩ : CreatePayload).created) s3 = .error 404 :=
  ⟨by decide, rfl,
   create_then_delete_spec sampleDB sampleBody ⟨5, 3⟩ sampleDB2 (by decide) rfl⟩

-- C8 -------------------------------------------------------------------------

/-- C8: `GET /questions/{id}` is a 404 exactly when no stored question has
that id; otherwise it returns the single formatted question, its stored
`category` value (the decimal string of its category id) as
`current_category`, the total question count and the category map. -/
theorem get_question_spec (s : DB) (question_id : Int) :
    (get_question question_id s = .error 404 ↔ ∀ q ∈ s.questions, q.id ≠ question_id)
  ∧ (∀ q, s.questions.find? (fun x => x.id == question_id) = some q →
      get_question question_id s
        = .ok ⟨[q.format], .cstr q.category, s.questions.length, categoryMap s⟩) := by
  constructor
  · unfold get_question
    rcases hf : s.questions.find? (fun x => x.id == question_id) with _ | q
    · rw [hf]
      rw [List.find?_eq_none] at hf
      constructor
      · intro _ x hx
        simpa using hf x hx
      · intro _
        rfl
    · rw [hf]
      have hmem := List.mem_of_find?_eq_some hf
      have hpred := List.find?_some hf
      constructor
      · intro h
        exact absurd h (by simp)
      · intro hall
        exact absurd (show q.id = question_id by simpa using hpred) (hall q hmem)
  · intro q hf
    unfold get_question
    rw [hf]

/-- C8 witness: fetching question 1 from the sample database. -/
theorem get_question_spec_witness :
    sampleDB.questions.find? (fun x => x.id == (1 : Int)) = some sampleQ
  ∧ get_question 1 sampleDB
      = .ok ⟨[sampleQ.format], .cstr sampleQ.category,
          sampleDB.questions.length, categoryMap sampleDB⟩ :=
  ⟨by decide, (get_question_spec sampleDB 1).2 sampleQ (by decide)⟩
